import Mathlib

/-!
# Verification of the QtEvoBot robot-control core

A shallow embedding of the EvoBot robot-control program
(`src/robotservice.cpp`, `src/controller.cpp`): the 6-byte command codec,
the command transmitter with its pending-write counter and periodic
retransmission tick, the notification parser for `V<digits>Play` /
`V<digits>End` payloads, and the derived controller state.

Bytes are modelled as mathematical integers in the signed `char` range
`[-128, 127]` (the program stores command bytes in a `QByteArray`, i.e.
`char`s, on a platform with signed 8-bit `char`); `toChar` performs the
C++ integer-to-char narrowing conversion.  The BLE transport is modelled
by its observable effects: the list of characteristic writes issued and
the signals emitted.
-/

namespace EvoBot

/-- C++ `static_cast<char>` narrowing of an integer: reduce modulo 256 into
the signed char range `[-128, 127]`. -/
def toChar (n : Int) : Int :=
  (n + 128) % 256 - 128

/-- `qBound(lo, x, hi)` from Qt, which is `qMax(lo, qMin(hi, x))`, here at
type `int`. -/
def qBound (lo x hi : Int) : Int :=
  max lo (min hi x)

/-- `qBound<char>(lo, x, hi)`: Qt's clamp instantiated at type `char`, so all
three arguments are first narrowed to `char`. -/
def qBoundChar (lo x hi : Int) : Int :=
  max (toChar lo) (min (toChar hi) (toChar x))

/-- The clamp function in the words of the specification:
`clamp(index, lo, hi)` on unbounded integers. -/
def specClamp (lo x hi : Int) : Int :=
  max lo (min x hi)

/-- `s_pauseMessage = "X\x11\x40\x40\x00\x00"`: the neutral 6-byte command. -/
def pauseMessage : List Int :=
  [0x58, 0x11, 0x40, 0x40, 0x00, 0x00]

/-- `RobotService::Private::MessageFragment`: a byte offset plus value;
the default-constructed fragment has offset `-1` and is invalid. -/
structure MessageFragment where
  offset : Int := -1
  value : Int := 0
deriving DecidableEq, Repr

/-- `MessageFragment::operator bool`: the fragment is valid iff its offset
lies within the 6-byte buffer. -/
def MessageFragment.isValid (f : MessageFragment) : Bool :=
  0 ≤ f.offset && f.offset < 6

/-- `RobotService::Private::fragmentForAction`: map an action symbol and
index to the byte fragment encoding it, given the firmware revision
(`m_firmwareRevision`; `-1` when unknown). -/
def fragmentForAction (firmwareRevision : Int) (action : Char) (index : Int) :
    MessageFragment :=
  if action = 'F' then ⟨1, toChar (qBoundChar 0 index 3 + 1)⟩
  else if action = 'B' then ⟨1, toChar (qBoundChar 0 index 3 + 5)⟩
  else if action = 'L' then ⟨1, toChar (qBoundChar 0 index 3 + 9)⟩
  else if action = 'R' then ⟨1, toChar (qBoundChar 0 index 3 + 13)⟩
  else if action = 'O' then ⟨2, 0x3c⟩
  else if action = 'C' then ⟨2, 0x3d⟩
  else if action = 'U' then ⟨3, 0x3e⟩
  else if action = 'D' then ⟨3, 0x3f⟩
  else if action = 'M' || action = 'V' then ⟨4, toChar (max 0 index + 21)⟩
  else if action = 'E' then
    ⟨5, toChar (if index ≠ 0
                then qBound 1 index 63 + (if firmwareRevision = 1 then 0x35 else 0x47)
                else 0x3b)⟩
  else {}

/-- The mutable state of `RobotService::Private`.  Service and
characteristic handles are abstracted to their validity (null/non-null,
valid/invalid), which is all the control flow inspects. -/
structure RobotState where
  deviceInformation : Bool
  robotControl : Bool
  writeValid : Bool
  firmwareRevision : Int
  currentSound : Int
  pendingMessageCount : Int
  message : List Int
  audioLoop : Bool
  emitterActive : Bool
deriving DecidableEq, Repr

/-- Observable effects of one operation: `currentMessageChanged` payloads,
`currentSoundChanged` payloads, and characteristic writes issued to the
robot (each carrying the transmitted message). -/
structure Emitted where
  msgEvents : List (List Int)
  soundEvents : List Int
  writes : List (List Int)
deriving DecidableEq, Repr

/-- No effects. -/
def Emitted.none : Emitted := ⟨[], [], []⟩

/-- Sequential composition of effects. -/
def Emitted.append (a b : Emitted) : Emitted :=
  ⟨a.msgEvents ++ b.msgEvents, a.soundEvents ++ b.soundEvents, a.writes ++ b.writes⟩

/-- State effect of `RobotService::Private::transmitMessage`: when the
robot-control service handle is set, increment the pending-write counter
(and issue a write, see `transmitWrites`). -/
def transmitMessage (s : RobotState) : RobotState :=
  if s.robotControl then
    { s with pendingMessageCount := s.pendingMessageCount + 1 }
  else s

/-- Writes issued by `transmitMessage`: the current message, when the
robot-control service handle is set. -/
def transmitWrites (s : RobotState) : List (List Int) :=
  if s.robotControl then [s.message] else []

/-- `RobotService::Private::setCurrentMessage(int offset, char value)`:
if the offset is in range and the byte differs, mutate the buffer, emit
`currentMessageChanged`, and transmit. -/
def setCurrentMessage (offset value : Int) (s : RobotState) :
    RobotState × Emitted :=
  if 0 ≤ offset ∧ offset < (s.message.length : Int) ∧
      s.message.getD offset.toNat 0 ≠ value then
    let s1 := { s with message := s.message.set offset.toNat value }
    (transmitMessage s1, ⟨[s1.message], [], transmitWrites s1⟩)
  else (s, Emitted.none)

/-- `RobotService::Private::setCurrentMessage(const QByteArray &)`:
whole-buffer replacement, ignored on length mismatch or no change. -/
def setCurrentMessageAll (message : List Int) (s : RobotState) :
    RobotState × Emitted :=
  if message ≠ s.message ∧ message.length = s.message.length then
    let s1 := { s with message := message }
    (transmitMessage s1, ⟨[message], [], transmitWrites s1⟩)
  else (s, Emitted.none)

/-- Result of a public action operation: new state, effects, and the
boolean success value returned to the caller. -/
structure ActionResult where
  state : RobotState
  out : Emitted
  ok : Bool
deriving DecidableEq, Repr

/-- `RobotService::Private::startAction`: `'S'` resets to the pause
message; otherwise resolve the fragment (setting loop mode when targeting
the sound byte) and apply it; unknown actions fail. -/
def startAction (action : Char) (index : Int) (s : RobotState) : ActionResult :=
  if action = 'S' then
    let r := setCurrentMessageAll pauseMessage s
    ⟨r.1, r.2, true⟩
  else
    let f := fragmentForAction s.firmwareRevision action index
    if f.isValid then
      let s1 := if f.offset = 4 then { s with audioLoop := action = 'M' } else s
      let r := setCurrentMessage f.offset f.value s1
      ⟨r.1, r.2, true⟩
    else ⟨s, Emitted.none, false⟩

/-- `RobotService::Private::stopAction`: apply the pause byte for the
fragment's offset, but only when that byte currently holds exactly the
fragment's value; fail otherwise. -/
def stopAction (action : Char) (index : Int) (s : RobotState) : ActionResult :=
  let f := fragmentForAction s.firmwareRevision action index
  if f.isValid then
    if f.value = s.message.getD f.offset.toNat 0 then
      let r := setCurrentMessage f.offset (pauseMessage.getD f.offset.toNat 0) s
      ⟨r.1, r.2, true⟩
    else ⟨s, Emitted.none, false⟩
  else ⟨s, Emitted.none, false⟩

/-- `RobotService::Private::onCharacteristicWritten` for the write
characteristic (a write acknowledgment): decrement the pending-write
counter, then clear byte 5 via `setCurrentMessage(5, 0)`. -/
def onCharacteristicWritten (s : RobotState) : RobotState × Emitted :=
  setCurrentMessage 5 0
    { s with pendingMessageCount := s.pendingMessageCount - 1 }

/-- `RobotService::Private::onEmitterTimeout`: the periodic tick
retransmits the current message only when no write is pending. -/
def onEmitterTimeout (s : RobotState) : RobotState × Emitted :=
  if s.pendingMessageCount = 0 then
    (transmitMessage s, ⟨[], [], transmitWrites s⟩)
  else (s, Emitted.none)

/-- Whether `pattern` is a prefix of `text` (literal character match). -/
def startsWithChars : List Char → List Char → Bool
  | [], _ => true
  | _ :: _, [] => false
  | p :: ps, c :: cs => p = c && startsWithChars ps cs

/-- First match of the regular expression `V(\d+)<tag>` in `text`,
returning the captured digit run: at each position, a literal `V`
followed by a maximal nonempty ASCII digit run followed directly by the
literal `tag` (the pattern used by `onCharacteristicChanged` with `tag`
being `Play` or `End`). -/
def matchVTag (tag : List Char) : List Char → Option (List Char)
  | [] => Option.none
  | c :: rest =>
    if c = 'V' then
      let ds := rest.takeWhile Char.isDigit
      if ds.length ≠ 0 && startsWithChars tag (rest.dropWhile Char.isDigit) then
        Option.some ds
      else matchVTag tag rest
    else matchVTag tag rest

/-- Decimal value of an ASCII digit run. -/
def parseDigits (ds : List Char) : Nat :=
  ds.foldl (fun a c => a * 10 + (c.toNat - 48)) 0

/-- `QString::toInt` on a captured nonempty digit run: its decimal value,
or 0 when the value overflows a 32-bit `int`. -/
def qToInt (ds : List Char) : Int :=
  if parseDigits ds ≤ 2147483647 then (parseDigits ds : Int) else 0

/-- The literal `Play` tag. -/
def playTag : List Char := ['P', 'l', 'a', 'y']

/-- The literal `End` tag. -/
def endTag : List Char := ['E', 'n', 'd']

/-- `RobotService::Private::onCharacteristicChanged` for the notify
characteristic: match `V(\d+)Play` first, then `V(\d+)End`; update the
current sound, issue the stop/replay action dictated by loop mode, and
emit `currentSoundChanged`. -/
def onCharacteristicChanged (payload : List Char) (s : RobotState) :
    RobotState × Emitted :=
  match matchVTag playTag payload with
  | Option.some ds =>
    let s1 := { s with currentSound := qToInt ds }
    let r := if !s1.audioLoop then stopAction 'V' s1.currentSound s1
             else ⟨s1, Emitted.none, true⟩
    (r.state, r.out.append ⟨[], [r.state.currentSound], []⟩)
  | Option.none =>
    match matchVTag endTag payload with
    | Option.some ds =>
      let s1 := { s with currentSound := qToInt ds }
      if s1.audioLoop then
        let r := startAction 'M' s1.currentSound s1
        (r.state, r.out.append ⟨[], [r.state.currentSound], []⟩)
      else
        let s2 := { s1 with currentSound := -s1.currentSound }
        let r := stopAction 'V' (-s2.currentSound) s2
        (r.state, r.out.append ⟨[], [r.state.currentSound], []⟩)
    | Option.none => (s, Emitted.none)

/-- One external event delivered to an attached robot session: a write
acknowledgment, a tick of the retransmission timer, a public buffer or
action operation, or a notification payload. -/
inductive SessionEvent where
  | writeAck
  | tick
  | setByte (offset value : Int)
  | setMessage (message : List Int)
  | start (action : Char) (index : Int)
  | stop (action : Char) (index : Int)
  | notify (payload : List Char)
deriving DecidableEq, Repr

/-- Dispatch one event to the corresponding handler.  The public
`setCurrentMessage(QList<int>)` slot narrows each entry to `char` before
delegating. -/
def stepEvent (s : RobotState) : SessionEvent → RobotState × Emitted
  | SessionEvent.writeAck => onCharacteristicWritten s
  | SessionEvent.tick => onEmitterTimeout s
  | SessionEvent.setByte offset value => setCurrentMessage offset value s
  | SessionEvent.setMessage message =>
      setCurrentMessageAll (message.map toChar) s
  | SessionEvent.start action index =>
      let r := startAction action index s
      (r.state, r.out)
  | SessionEvent.stop action index =>
      let r := stopAction action index s
      (r.state, r.out)
  | SessionEvent.notify payload => onCharacteristicChanged payload s

/-- Run a sequence of events, accumulating effects. -/
def runEvents (s : RobotState) : List SessionEvent → RobotState × Emitted
  | [] => (s, Emitted.none)
  | e :: es =>
    let r := stepEvent s e
    let r2 := runEvents r.1 es
    (r2.1, r.2.append r2.2)

/-- Number of write-acknowledgment events in a sequence. -/
def countAcks : List SessionEvent → Nat
  | [] => 0
  | SessionEvent.writeAck :: es => countAcks es + 1
  | _ :: es => countAcks es

/-- `RobotService::State`. -/
inductive SessionState where
  | disconnected
  | connecting
  | connected
deriving DecidableEq, Repr, Fintype

/-- `RobotService::Private::state()`: Connected iff the write
characteristic is valid; Connecting iff both services are resolved;
otherwise Disconnected. -/
def sessionState (s : RobotState) : SessionState :=
  if s.writeValid then SessionState.connected
  else if s.robotControl ∧ s.deviceInformation then SessionState.connecting
  else SessionState.disconnected

/-- `Controller::Error`. -/
inductive ControllerError where
  | noError
  | bluetoothMissing
  | deviceDiscoveryError
  | deviceError
deriving DecidableEq, Repr, Fintype

/-- `Controller::State` (the public enum, including the `Connecting`
value). -/
inductive ControllerState where
  | uninitialized
  | deviceDiscovery
  | serviceDiscovery
  | connecting
  | connected
  | error
deriving DecidableEq, Repr, Fintype

/-- `Controller::Private::state()`: the derived overall state, computed
from the error flag, the robot session's state, whether a central handle
exists, and whether device discovery is active. -/
def controllerState (error : ControllerError) (robot : SessionState)
    (central discovering : Bool) : ControllerState :=
  if error ≠ ControllerError.noError then ControllerState.error
  else if robot = SessionState.connected then ControllerState.connected
  else if central then ControllerState.serviceDiscovery
  else if discovering then ControllerState.deviceDiscovery
  else ControllerState.uninitialized

/-- Modelled from the spec: the repository's sources contain no explicit
detach operation for the robot session (`RobotService` only exposes
`attach`); the specification describes the Connecting/Connected →
Disconnected transition as clearing "both service handles and the
write-characteristic handle" and stopping "the tick timer".  This models
exactly that transition on the session state. -/
def detach (s : RobotState) : RobotState :=
  { s with deviceInformation := false, robotControl := false,
           writeValid := false, emitterActive := false }

/-- A fully attached session at rest: both services resolved, write
characteristic armed, timer running, firmware revision 2, pause message
loaded, nothing pending. -/
def connState : RobotState :=
  { deviceInformation := true, robotControl := true, writeValid := true,
    firmwareRevision := 2, currentSound := 0, pendingMessageCount := 0,
    message := pauseMessage, audioLoop := false, emitterActive := true }

/-! ## Helper lemmas -/

lemma toChar_eq_self {n : Int} (h1 : -128 ≤ n) (h2 : n ≤ 127) : toChar n = n := by
  unfold toChar; omega

lemma toChar_emod (n : Int) : toChar n % 256 = n % 256 := by
  unfold toChar; omega

lemma qBoundChar_eq_specClamp {index : Int} (h1 : -128 ≤ index) (h2 : index ≤ 127) :
    qBoundChar 0 index 3 = specClamp 0 index 3 := by
  unfold qBoundChar specClamp toChar; omega

lemma qBound_eq_specClamp (index : Int) : qBound 1 index 63 = specClamp 1 index 63 := by
  unfold qBound specClamp; omega

lemma specClamp03_bounds (index : Int) :
    0 ≤ specClamp 0 index 3 ∧ specClamp 0 index 3 ≤ 3 := by
  unfold specClamp; omega

lemma fragmentForAction_F (rev index : Int) :
    fragmentForAction rev 'F' index = ⟨1, toChar (qBoundChar 0 index 3 + 1)⟩ := rfl

lemma fragmentForAction_B (rev index : Int) :
    fragmentForAction rev 'B' index = ⟨1, toChar (qBoundChar 0 index 3 + 5)⟩ := rfl

lemma fragmentForAction_L (rev index : Int) :
    fragmentForAction rev 'L' index = ⟨1, toChar (qBoundChar 0 index 3 + 9)⟩ := rfl

lemma fragmentForAction_R (rev index : Int) :
    fragmentForAction rev 'R' index = ⟨1, toChar (qBoundChar 0 index 3 + 13)⟩ := rfl

lemma fragmentForAction_E (rev index : Int) :
    fragmentForAction rev 'E' index =
      ⟨5, toChar (if index ≠ 0
                  then qBound 1 index 63 + (if rev = 1 then 0x35 else 0x47)
                  else 0x3b)⟩ := rfl

/-! ## Claim C3: locomotion encoding -/

/-- C3 (counterexample): the claim fails as stated for indices outside the
`char` range.  `start_action('F', 256)` narrows the index to `char` 0
before clamping, yielding byte value 1, whereas `clamp(256, 0, 3) + 1 = 4`. -/
theorem locomotion_clamp_narrowing_cex :
    (fragmentForAction 2 'F' 256).offset = 1
  ∧ (fragmentForAction 2 'F' 256).value = 1
  ∧ specClamp 0 256 3 + 1 = 4
  ∧ (fragmentForAction 2 'F' 256).value ≠ specClamp 0 256 3 + 1 := by
  decide

/-- C3 (amended): for every index in the `char` range `[-128, 127]` (the
codec first narrows the index to `char`), the locomotion actions `F`, `B`,
`L`, `R` map to offset 1 with value `clamp(index, 0, 3)` plus per-direction
base 1, 5, 9, 13, giving four disjoint 4-wide bands `[1,4]`, `[5,8]`,
`[9,12]`, `[13,16]`; `start_action('F', 2)` leaves byte 1 equal to 3 and
`start_action('F', 99)` leaves byte 1 equal to 4. -/
theorem locomotion_bands (rev index : Int)
    (h : -128 ≤ index ∧ index ≤ 127) :
    (fragmentForAction rev 'F' index = ⟨1, specClamp 0 index 3 + 1⟩
  ∧ fragmentForAction rev 'B' index = ⟨1, specClamp 0 index 3 + 5⟩
  ∧ fragmentForAction rev 'L' index = ⟨1, specClamp 0 index 3 + 9⟩
  ∧ fragmentForAction rev 'R' index = ⟨1, specClamp 0 index 3 + 13⟩)
  ∧ (1 ≤ specClamp 0 index 3 + 1 ∧ specClamp 0 index 3 + 1 ≤ 4)
  ∧ (5 ≤ specClamp 0 index 3 + 5 ∧ specClamp 0 index 3 + 5 ≤ 8)
  ∧ (9 ≤ specClamp 0 index 3 + 9 ∧ specClamp 0 index 3 + 9 ≤ 12)
  ∧ (13 ≤ specClamp 0 index 3 + 13 ∧ specClamp 0 index 3 + 13 ≤ 16)
  ∧ (startAction 'F' 2 connState).state.message.getD 1 0 = 3
  ∧ (startAction 'F' 99 connState).state.message.getD 1 0 = 4 := by
  obtain ⟨h1, h2⟩ := h
  have hb := specClamp03_bounds index
  have hq := qBoundChar_eq_specClamp h1 h2
  refine ⟨⟨?_, ?_, ?_, ?_⟩, by omega, by omega, by omega, by omega, by decide, by decide⟩
  · rw [fragmentForAction_F, hq, toChar_eq_self (by omega) (by omega)]
  · rw [fragmentForAction_B, hq, toChar_eq_self (by omega) (by omega)]
  · rw [fragmentForAction_L, hq, toChar_eq_self (by omega) (by omega)]
  · rw [fragmentForAction_R, hq, toChar_eq_self (by omega) (by omega)]

/-- C3 (witness): the amended theorem instantiated at index 2. -/
theorem locomotion_bands_witness :
    fragmentForAction 2 'F' 2 = ⟨1, specClamp 0 2 3 + 1⟩ :=
  (locomotion_bands 2 2 (by decide)).1.1

/-! ## Claim C4: extension-byte encoding -/

/-- C4 (counterexample): for index 0 the extension fragment's value is the
fixed one-shot byte `0x3b`, not 0 as the claim states. -/
theorem extension_idle_value_cex :
    fragmentForAction 2 'E' 0 = ⟨5, 0x3b⟩
  ∧ (fragmentForAction 2 'E' 0).value ≠ 0 := by
  decide

/-- C4 (amended): the extension action `E` maps to offset 5; for every
nonzero index the value byte equals (mod 256) `clamp(index, 1, 63) + 0x35`
under firmware revision 1 and `clamp(index, 1, 63) + 0x47` under any other
revision (2 or unknown); for index 0 the value is the fixed byte `0x3b`
(byte 5 of the message idles at 0 only because each acknowledged write
clears it). -/
theorem extension_encoding (rev index : Int) (h : index ≠ 0) :
    (fragmentForAction rev 'E' index).offset = 5
  ∧ (rev = 1 →
      (fragmentForAction rev 'E' index).value % 256
        = (specClamp 1 index 63 + 0x35) % 256)
  ∧ (rev ≠ 1 →
      (fragmentForAction rev 'E' index).value % 256
        = (specClamp 1 index 63 + 0x47) % 256)
  ∧ (fragmentForAction rev 'E' 0).value = 0x3b := by
  refine ⟨by rw [fragmentForAction_E], ?_, ?_, ?_⟩
  · intro hrev
    rw [fragmentForAction_E]
    simp only [h, if_true, hrev, if_pos, ite_true]
    rw [toChar_emod, qBound_eq_specClamp, if_pos h]
  · intro hrev
    rw [fragmentForAction_E]
    simp only [h, hrev, ite_true, ite_false, if_neg]
    rw [toChar_emod, qBound_eq_specClamp, if_pos h]
  · rw [fragmentForAction_E]
    norm_num [toChar]

/-- C4 (witness): the amended theorem instantiated at revision 1 and
index 10, where the encoded byte is `10 + 0x35`. -/
theorem extension_encoding_witness :
    (fragmentForAction 1 'E' 10).offset = 5
  ∧ (fragmentForAction 1 'E' 10).value % 256 = (specClamp 1 10 63 + 0x35) % 256 :=
  ⟨(extension_encoding 1 10 (by decide)).1,
   (extension_encoding 1 10 (by decide)).2.1 rfl⟩

/-! ## Claim C9: derived controller state -/

/-- C9: for every combination of error flag, robot-session state, central
handle, and discovery activity, the controller's derived state is one of
Uninitialized, DeviceDiscovery, ServiceDiscovery, Connected, or Error; it
is never the declared-but-unreachable Connecting value, and Error
dominates whenever the error flag is set. -/
theorem controller_state_derivation (e : ControllerError) (r : SessionState)
    (central discovering : Bool) :
    controllerState e r central discovering ≠ ControllerState.connecting
  ∧ (e ≠ ControllerError.noError →
      controllerState e r central discovering = ControllerState.error)
  ∧ controllerState e r central discovering ∈
      [ControllerState.uninitialized, ControllerState.deviceDiscovery,
       ControllerState.serviceDiscovery, ControllerState.connected,
       ControllerState.error] := by
  revert e r central discovering
  decide

/-- C9 (witness): a device error dominates an otherwise
service-discovery-shaped configuration. -/
theorem controller_state_derivation_witness :
    controllerState ControllerError.deviceError SessionState.disconnected
      true false = ControllerState.error :=
  (controller_state_derivation ControllerError.deviceError
    SessionState.disconnected true false).2.1 (by decide)

/-! ## Helper lemmas about the transmitter -/

lemma transmitMessage_message (s : RobotState) :
    (transmitMessage s).message = s.message := by
  unfold transmitMessage; split <;> rfl

lemma setCurrentMessage_getD_self (offset value : Int) (s : RobotState)
    (ho : 0 ≤ offset) (hlt : offset < (s.message.length : Int)) :
    (setCurrentMessage offset value s).1.message.getD offset.toNat 0 = value := by
  unfold setCurrentMessage
  split
  · simp only [transmitMessage_message]
    rw [List.getD_eq_getElem?_getD, List.getElem?_set_eq_of_lt _ (by omega)]
    rfl
  · next hcond =>
    push_neg at hcond
    exact hcond ho hlt

lemma setCurrentMessage_getD_other (offset value : Int) (s : RobotState)
    (j : Nat) (hj : j ≠ offset.toNat) :
    (setCurrentMessage offset value s).1.message.getD j 0 = s.message.getD j 0 := by
  unfold setCurrentMessage
  split
  · simp only [transmitMessage_message]
    rw [List.getD_eq_getElem?_getD, List.getElem?_set_ne (by omega),
        ← List.getD_eq_getElem?_getD]
  · rfl

/-! ## Claim C5: stop-action semantics -/

/-- C5: for every supported action and index (one whose fragment is valid)
on a session with the 6-byte buffer, `stop_action` succeeds iff the buffer
byte at the fragment's offset currently holds exactly the fragment's
value; on success that byte becomes the pause constant's byte at the same
offset and every other byte is untouched.  Concretely, `stop_action('F',2)`
right after the corresponding start succeeds and restores byte 1 to the
pause byte, and repeating it fails. -/
theorem stop_action_exact_match (action : Char) (index : Int) (s : RobotState)
    (hv : (fragmentForAction s.firmwareRevision action index).isValid = true)
    (hl : s.message.length = 6) :
    ((stopAction action index s).ok = true ↔
      s.message.getD (fragmentForAction s.firmwareRevision action index).offset.toNat 0
        = (fragmentForAction s.firmwareRevision action index).value)
  ∧ ((stopAction action index s).ok = true →
      (stopAction action index s).state.message.getD
          (fragmentForAction s.firmwareRevision action index).offset.toNat 0
        = pauseMessage.getD (fragmentForAction s.firmwareRevision action index).offset.toNat 0
      ∧ ∀ j : Nat, j ≠ (fragmentForAction s.firmwareRevision action index).offset.toNat →
          (stopAction action index s).state.message.getD j 0 = s.message.getD j 0)
  ∧ (stopAction 'F' 2 (startAction 'F' 2 connState).state).ok = true
  ∧ (stopAction 'F' 2 (startAction 'F' 2 connState).state).state.message.getD 1 0
      = pauseMessage.getD 1 0
  ∧ (stopAction 'F' 2 (stopAction 'F' 2 (startAction 'F' 2 connState).state).state).ok
      = false := by
  have hb : (0 ≤ (fragmentForAction s.firmwareRevision action index).offset
      ∧ (fragmentForAction s.firmwareRevision action index).offset < 6) := by
    simpa [MessageFragment.isValid, Bool.and_eq_true, decide_eq_true_eq] using hv
  by_cases hm : (fragmentForAction s.firmwareRevision action index).value
      = s.message.getD (fragmentForAction s.firmwareRevision action index).offset.toNat 0
  · have hstop : stopAction action index s =
        ⟨(setCurrentMessage (fragmentForAction s.firmwareRevision action index).offset
            (pauseMessage.getD
              (fragmentForAction s.firmwareRevision action index).offset.toNat 0) s).1,
          (setCurrentMessage (fragmentForAction s.firmwareRevision action index).offset
            (pauseMessage.getD
              (fragmentForAction s.firmwareRevision action index).offset.toNat 0) s).2,
          true⟩ := by
      simp only [stopAction]
      rw [if_pos hv, if_pos hm]
    refine ⟨?_, ?_, by decide, by decide, by decide⟩
    · rw [hstop]
      simpa using hm.symm
    · intro _
      rw [hstop]
      refine ⟨setCurrentMessage_getD_self _ _ _ hb.1 (by omega),
              fun j hj => setCurrentMessage_getD_other _ _ _ j hj⟩
  · have hstop : stopAction action index s = ⟨s, Emitted.none, false⟩ := by
      simp only [stopAction]
      rw [if_pos hv, if_neg hm]
    rw [hstop]
    refine ⟨?_, by simp, by decide, by decide, by decide⟩
    constructor
    · intro h; exact absurd h (by simp)
    · intro h; exact absurd h.symm hm

/-- C5 (witness): the theorem instantiated right after `start_action('F',2)`
on an attached session. -/
theorem stop_action_exact_match_witness :
    (stopAction 'F' 2 (startAction 'F' 2 connState).state).ok = true :=
  (stop_action_exact_match 'F' 2 connState (by decide) (by decide)).2.2.1

/-! ## Claim C8: detach semantics -/

/-- C8 (counterexample): after detaching an attached session, a
`start_action` call with a supported action still returns success, while
the claim states that every subsequent `start_action` call fails. -/
theorem start_action_after_detach_cex :
    (detach connState).writeValid = false
  ∧ (detach connState).emitterActive = false
  ∧ (startAction 'F' 2 (detach connState)).ok = true := by
  decide

/-- C8 (amended): detaching clears both service handles and the
write-characteristic handle, stops the tick timer, and leaves the session
Disconnected; however a subsequent `start_action` with a supported action
still succeeds (it returns true and updates only the local command
buffer) — it merely issues no BLE write, because the service handle is
cleared.  `start_action` does not check connectivity; only unknown
actions fail. -/
theorem detach_clears_session (s : RobotState) :
    (detach s).robotControl = false
  ∧ (detach s).deviceInformation = false
  ∧ (detach s).writeValid = false
  ∧ (detach s).emitterActive = false
  ∧ sessionState (detach s) = SessionState.disconnected
  ∧ (startAction 'F' 2 (detach s)).ok = true
  ∧ (startAction 'F' 2 (detach s)).out.writes = [] := by
  have hfrag : fragmentForAction (detach s).firmwareRevision 'F' 2 = ⟨1, 3⟩ := by
    rw [fragmentForAction_F]; decide
  refine ⟨rfl, rfl, rfl, rfl, by simp [sessionState, detach], ?_, ?_⟩
  · simp only [startAction]
    rw [if_neg (by decide : ¬('F' = 'S')), hfrag,
        if_pos (by decide : (MessageFragment.mk 1 3).isValid = true)]
  · simp only [startAction]
    rw [if_neg (by decide : ¬('F' = 'S')), hfrag,
        if_pos (by decide : (MessageFragment.mk 1 3).isValid = true),
        if_neg (by decide : ¬((MessageFragment.mk 1 3).offset = 4))]
    simp only [setCurrentMessage]
    split
    · simp [transmitWrites, detach]
    · rfl

/-! ## Claim C10: failed operations are atomic -/

/-- C10: whenever `start_action` or `stop_action` returns failure, the
session state — in particular the 6-byte command buffer — is completely
unchanged and no effects are produced: no message-changed signal, no
sound-changed signal, no characteristic write. -/
theorem failed_actions_atomic (action : Char) (index : Int) (s : RobotState) :
    ((startAction action index s).ok = false →
      (startAction action index s).state = s
      ∧ (startAction action index s).out = Emitted.none)
  ∧ ((stopAction action index s).ok = false →
      (stopAction action index s).state = s
      ∧ (stopAction action index s).out = Emitted.none) := by
  constructor
  · intro h
    by_cases hS : action = 'S'
    · exfalso
      simp only [startAction] at h
      rw [if_pos hS] at h
      exact Bool.true_eq_false.mp h
    · by_cases hv : (fragmentForAction s.firmwareRevision action index).isValid = true
      · exfalso
        simp only [startAction] at h
        rw [if_neg hS, if_pos hv] at h
        exact Bool.true_eq_false.mp h
      · simp only [startAction]
        rw [if_neg hS, if_neg hv]
        exact ⟨rfl, rfl⟩
  · intro h
    by_cases hv : (fragmentForAction s.firmwareRevision action index).isValid = true
    · by_cases hm : (fragmentForAction s.firmwareRevision action index).value
          = s.message.getD (fragmentForAction s.firmwareRevision action index).offset.toNat 0
      · exfalso
        simp only [stopAction] at h
        rw [if_pos hv, if_pos hm] at h
        exact Bool.true_eq_false.mp h
      · simp only [stopAction]
        rw [if_pos hv, if_neg hm]
        exact ⟨rfl, rfl⟩
    · simp only [stopAction]
      rw [if_neg hv]
      exact ⟨rfl, rfl⟩

/-- C10 (witness): the unknown action `'X'` fails and leaves the attached
session untouched. -/
theorem failed_actions_atomic_witness :
    (startAction 'X' 0 connState).ok = false
  ∧ (startAction 'X' 0 connState).state = connState
  ∧ (startAction 'X' 0 connState).out = Emitted.none :=
  ⟨by decide,
   ((failed_actions_atomic 'X' 0 connState).1 (by decide)).1,
   ((failed_actions_atomic 'X' 0 connState).1 (by decide)).2⟩

/-! ## Pending-write counter accounting -/

lemma transmitMessage_pending (s : RobotState) :
    (transmitMessage s).pendingMessageCount
      = s.pendingMessageCount + ((transmitWrites s).length : Int) := by
  unfold transmitMessage transmitWrites; split <;> simp

lemma setCurrentMessage_pending (offset value : Int) (s : RobotState) :
    (setCurrentMessage offset value s).1.pendingMessageCount
      = s.pendingMessageCount
        + ((setCurrentMessage offset value s).2.writes.length : Int) := by
  unfold setCurrentMessage
  split
  · simp [transmitMessage_pending]
  · simp [Emitted.none]

lemma setCurrentMessageAll_pending (m : List Int) (s : RobotState) :
    (setCurrentMessageAll m s).1.pendingMessageCount
      = s.pendingMessageCount
        + ((setCurrentMessageAll m s).2.writes.length : Int) := by
  unfold setCurrentMessageAll
  split
  · simp [transmitMessage_pending]
  · simp [Emitted.none]

lemma startAction_pending (a : Char) (i : Int) (s : RobotState) :
    (startAction a i s).state.pendingMessageCount
      = s.pendingMessageCount + ((startAction a i s).out.writes.length : Int) := by
  unfold startAction
  dsimp only
  split
  · exact setCurrentMessageAll_pending _ _
  · split
    · rw [setCurrentMessage_pending]
      split <;> rfl
    · simp [Emitted.none]

lemma stopAction_pending (a : Char) (i : Int) (s : RobotState) :
    (stopAction a i s).state.pendingMessageCount
      = s.pendingMessageCount + ((stopAction a i s).out.writes.length : Int) := by
  unfold stopAction
  dsimp only
  split
  · split
    · exact setCurrentMessage_pending _ _ _
    · simp [Emitted.none]
  · simp [Emitted.none]

lemma onCharacteristicWritten_pending (s : RobotState) :
    (onCharacteristicWritten s).1.pendingMessageCount
      = s.pendingMessageCount
        + ((onCharacteristicWritten s).2.writes.length : Int) - 1 := by
  unfold onCharacteristicWritten
  rw [setCurrentMessage_pending]
  simp
  ring

lemma onEmitterTimeout_pending (s : RobotState) :
    (onEmitterTimeout s).1.pendingMessageCount
      = s.pendingMessageCount + ((onEmitterTimeout s).2.writes.length : Int) := by
  unfold onEmitterTimeout
  split
  · simp [transmitMessage_pending]
  · simp [Emitted.none]

lemma onCharacteristicChanged_pending (p : List Char) (s : RobotState) :
    (onCharacteristicChanged p s).1.pendingMessageCount
      = s.pendingMessageCount
        + ((onCharacteristicChanged p s).2.writes.length : Int) := by
  unfold onCharacteristicChanged
  rcases hplay : matchVTag playTag p with _ | ds
  · rcases hend : matchVTag endTag p with _ | ds
    · simp [Emitted.none]
    · dsimp only
      split
      · rw [Emitted.append]
        simp [startAction_pending]
      · rw [Emitted.append]
        simp [stopAction_pending]
  · dsimp only
    split
    · rw [Emitted.append]
      simp [stopAction_pending]
    · rw [Emitted.append]
      simp [Emitted.none]

lemma Emitted_append_writes (a b : Emitted) :
    (a.append b).writes = a.writes ++ b.writes := rfl

lemma countAcks_cons (e : SessionEvent) (es : List SessionEvent) :
    countAcks (e :: es)
      = (if e = SessionEvent.writeAck then 1 else 0) + countAcks es := by
  cases e <;> simp [countAcks, Nat.add_comm]

lemma stepEvent_pending (s : RobotState) (e : SessionEvent) :
    (stepEvent s e).1.pendingMessageCount
      = s.pendingMessageCount + ((stepEvent s e).2.writes.length : Int)
        - (if e = SessionEvent.writeAck then 1 else 0) := by
  cases e with
  | writeAck => simpa [stepEvent] using onCharacteristicWritten_pending s
  | tick => simpa [stepEvent] using onEmitterTimeout_pending s
  | setByte o v => simpa [stepEvent] using setCurrentMessage_pending o v s
  | setMessage m =>
      simpa [stepEvent] using setCurrentMessageAll_pending (m.map toChar) s
  | start a i => simpa [stepEvent] using startAction_pending a i s
  | stop a i => simpa [stepEvent] using stopAction_pending a i s
  | notify p => simpa [stepEvent] using onCharacteristicChanged_pending p s

/-! ## Claim C1: the pending-write counter -/

/-- C1 (counterexample): a write acknowledgment arriving while the counter
is zero is not a no-op — it drives the counter to -1, refuting the claim
that the counter stays non-negative across every event sequence. -/
theorem spurious_ack_negative_cex :
    connState.pendingMessageCount = 0
  ∧ (runEvents connState [SessionEvent.writeAck]).1.pendingMessageCount = -1
  ∧ (runEvents connState [SessionEvent.writeAck]).1.pendingMessageCount < 0 := by
  decide

/-- C1 (amended): every write acknowledgment decrements the pending-write
counter by exactly one, with no floor at zero; across any sequence of
session events the counter equals its initial value plus the number of
characteristic writes issued minus the number of acknowledgments
received.  It therefore stays non-negative exactly in runs where
acknowledgments never outnumber issued writes; a spurious acknowledgment
at counter zero yields -1 instead of being treated as a no-op. -/
theorem pending_counter_balance (s : RobotState) (es : List SessionEvent) :
    (runEvents s es).1.pendingMessageCount
      = s.pendingMessageCount + ((runEvents s es).2.writes.length : Int)
        - (countAcks es : Int) := by
  induction es generalizing s with
  | nil => simp [runEvents, countAcks, Emitted.none]
  | cons e es ih =>
    have h1 := stepEvent_pending s e
    have h2 := ih (stepEvent s e).1
    simp only [runEvents, Emitted_append_writes, List.length_append,
               countAcks_cons]
    rcases eq_or_ne e SessionEvent.writeAck with he | he
    · rw [if_pos he] at h1 ⊢
      push_cast at h1 h2 ⊢
      omega
    · rw [if_neg he] at h1 ⊢
      push_cast at h1 h2 ⊢
      omega

/-! ## Claim C2: the retransmission tick -/

/-- C2: while the robot-control service handle is set (which is the case
whenever the retransmission timer is running — only `startTransmission`
starts it, and only with the handle in place), a firing of the periodic
timer issues a transmit of the current 6-byte message if and only if the
pending-write counter is exactly zero; with a nonzero counter the tick
does nothing at all. -/
theorem tick_transmits_iff_no_pending (s : RobotState)
    (h : s.robotControl = true) :
    ((onEmitterTimeout s).2.writes = [s.message]
      ↔ s.pendingMessageCount = 0)
  ∧ (s.pendingMessageCount ≠ 0 → onEmitterTimeout s = (s, Emitted.none)) := by
  constructor
  · constructor
    · intro hw
      by_contra hp
      simp [onEmitterTimeout, hp, Emitted.none] at hw
    · intro hp
      simp [onEmitterTimeout, hp, transmitWrites, h]
  · intro hp
    simp [onEmitterTimeout, hp]

/-- C2 (witness): a tick on an attached session with nothing pending
writes the pause message. -/
theorem tick_transmits_iff_no_pending_witness :
    (onEmitterTimeout connState).2.writes = [pauseMessage] :=
  (tick_transmits_iff_no_pending connState rfl).1.mpr rfl

/-! ## Helper lemmas for the notification handler -/

lemma fragmentForAction_V (rev index : Int) :
    fragmentForAction rev 'V' index = ⟨4, toChar (max 0 index + 21)⟩ := rfl

lemma fragmentForAction_M (rev index : Int) :
    fragmentForAction rev 'M' index = ⟨4, toChar (max 0 index + 21)⟩ := rfl

lemma qToInt_nonneg (ds : List Char) : 0 ≤ qToInt ds := by
  unfold qToInt; split <;> simp

lemma transmitMessage_currentSound (s : RobotState) :
    (transmitMessage s).currentSound = s.currentSound := by
  unfold transmitMessage; split <;> rfl

lemma setCurrentMessage_currentSound (o v : Int) (s : RobotState) :
    (setCurrentMessage o v s).1.currentSound = s.currentSound := by
  unfold setCurrentMessage; split
  · rw [transmitMessage_currentSound]
  · rfl

lemma setCurrentMessage_soundEvents (o v : Int) (s : RobotState) :
    (setCurrentMessage o v s).2.soundEvents = [] := by
  unfold setCurrentMessage; split <;> rfl

lemma setCurrentMessageAll_currentSound (m : List Int) (s : RobotState) :
    (setCurrentMessageAll m s).1.currentSound = s.currentSound := by
  unfold setCurrentMessageAll; split
  · rw [transmitMessage_currentSound]
  · rfl

lemma setCurrentMessageAll_soundEvents (m : List Int) (s : RobotState) :
    (setCurrentMessageAll m s).2.soundEvents = [] := by
  unfold setCurrentMessageAll; split <;> rfl

lemma stopAction_currentSound (a : Char) (i : Int) (s : RobotState) :
    (stopAction a i s).state.currentSound = s.currentSound := by
  unfold stopAction; dsimp only; split
  · split
    · exact setCurrentMessage_currentSound _ _ _
    · rfl
  · rfl

lemma stopAction_soundEvents (a : Char) (i : Int) (s : RobotState) :
    (stopAction a i s).out.soundEvents = [] := by
  unfold stopAction; dsimp only; split
  · split
    · exact setCurrentMessage_soundEvents _ _ _
    · rfl
  · rfl

lemma startAction_currentSound (a : Char) (i : Int) (s : RobotState) :
    (startAction a i s).state.currentSound = s.currentSound := by
  unfold startAction; dsimp only; split
  · exact setCurrentMessageAll_currentSound _ _
  · split
    · rw [setCurrentMessage_currentSound]
      split <;> rfl
    · rfl

lemma startAction_soundEvents (a : Char) (i : Int) (s : RobotState) :
    (startAction a i s).out.soundEvents = [] := by
  unfold startAction; dsimp only; split
  · exact setCurrentMessageAll_soundEvents _ _
  · split
    · exact setCurrentMessage_soundEvents _ _ _
    · rfl

lemma Emitted_append_soundEvents (a b : Emitted) :
    (a.append b).soundEvents = a.soundEvents ++ b.soundEvents := rfl

/-- An attached session on which sound 3 is playing (byte 4 holds
`3 + 21 = 24`), loop mode off. -/
def playingState : RobotState :=
  { connState with message := [0x58, 0x11, 0x40, 0x40, 24, 0x00] }

/-- An attached session with loop mode on, byte 4 holding `3 + 21 = 24`. -/
def loopingState : RobotState :=
  { connState with audioLoop := true,
                   message := [0x58, 0x11, 0x40, 0x40, 24, 0x00] }

/-- An attached session with loop mode on, byte 4 holding `9 + 21 = 30`. -/
def loopState : RobotState :=
  { connState with audioLoop := true,
                   message := [0x58, 0x11, 0x40, 0x40, 30, 0x00] }

/-! ## Claim C6: `V<digits>Play` notifications -/

/-- C6: for every notification payload matching `V<digits>Play`, with `n`
the integer the code parses from the digits, while loop mode is off: the
current sound becomes `n`, exactly one sound-changed event is emitted and
it carries `n`, and the immediately issued stop-action for index `n`
returns byte 4 to the idle value 0 whenever it held the encoding of sound
`n` (the byte `n + 21`). -/
theorem play_notification_stops_sound (payload ds : List Char) (n : Int)
    (s : RobotState)
    (hm : matchVTag playTag payload = Option.some ds)
    (hn : qToInt ds = n)
    (hloop : s.audioLoop = false)
    (hl : s.message.length = 6) :
    (onCharacteristicChanged payload s).1.currentSound = n
  ∧ (onCharacteristicChanged payload s).2.soundEvents = [n]
  ∧ (s.message.getD 4 0 = toChar (n + 21) →
      (onCharacteristicChanged payload s).1.message.getD 4 0 = 0) := by
  subst hn
  have h0 : 0 ≤ qToInt ds := qToInt_nonneg ds
  unfold onCharacteristicChanged
  rw [hm]
  dsimp only
  have hcond : (!({ s with currentSound := qToInt ds } : RobotState).audioLoop)
      = true := by simp [hloop]
  rw [if_pos hcond]
  refine ⟨?_, ?_, ?_⟩
  · exact stopAction_currentSound _ _ _
  · rw [Emitted_append_soundEvents, stopAction_soundEvents,
        stopAction_currentSound]
    rfl
  · intro hbyte
    have hfrag : fragmentForAction s.firmwareRevision 'V' (qToInt ds)
        = ⟨4, toChar (qToInt ds + 21)⟩ := by
      rw [fragmentForAction_V, max_eq_right h0]
    have hmatch : (fragmentForAction s.firmwareRevision 'V' (qToInt ds)).value
        = s.message.getD
            (fragmentForAction s.firmwareRevision 'V' (qToInt ds)).offset.toNat 0 := by
      rw [hfrag]
      exact hbyte.symm
    simp only [stopAction]
    rw [if_pos (by rw [hfrag]; rfl :
          (fragmentForAction s.firmwareRevision 'V' (qToInt ds)).isValid = true)]
    rw [if_pos hmatch]
    dsimp only
    rw [hfrag]
    have := setCurrentMessage_getD_self 4 (pauseMessage.getD (4:Int).toNat 0)
      { s with currentSound := qToInt ds } (by omega) (by simp [hl])
    simpa using this

/-- C6 (witness): payload `"V3Play"` on a non-looping session whose byte 4
holds 24 sets the sound to 3, emits one event, and idles byte 4. -/
theorem play_notification_stops_sound_witness :
    (onCharacteristicChanged ['V','3','P','l','a','y'] playingState).1.currentSound = 3
  ∧ (onCharacteristicChanged ['V','3','P','l','a','y'] playingState).2.soundEvents = [3]
  ∧ (onCharacteristicChanged ['V','3','P','l','a','y'] playingState).1.message.getD 4 0
      = 0 :=
  ⟨(play_notification_stops_sound ['V','3','P','l','a','y'] ['3'] 3 playingState
      (by decide) (by decide) rfl (by decide)).1,
   (play_notification_stops_sound ['V','3','P','l','a','y'] ['3'] 3 playingState
      (by decide) (by decide) rfl (by decide)).2.1,
   (play_notification_stops_sound ['V','3','P','l','a','y'] ['3'] 3 playingState
      (by decide) (by decide) rfl (by decide)).2.2 (by decide)⟩

/-! ## Claim C7: `V<digits>End` notifications -/

/-- C7 (counterexample): the handler checks the `Play` pattern first, so a
payload matching `V<digits>End` that also contains a `Play` match is
handled as a play notification: on `"V9PlayV2End"` with loop mode on,
byte 4 is left at 30 instead of re-encoding sound 2 as `2 + 21 = 23` as
the claim requires. -/
theorem end_notification_play_precedence_cex :
    matchVTag endTag ['V','9','P','l','a','y','V','2','E','n','d']
      = Option.some ['2']
  ∧ loopState.audioLoop = true
  ∧ toChar (qToInt ['2'] + 21) = 23
  ∧ (onCharacteristicChanged ['V','9','P','l','a','y','V','2','E','n','d']
        loopState).1.message.getD 4 0 = 30
  ∧ (onCharacteristicChanged ['V','9','P','l','a','y','V','2','E','n','d']
        loopState).1.message.getD 4 0 ≠ toChar (qToInt ['2'] + 21) := by
  decide

/-- C7 (amended): for every notification payload matching `V<digits>End`
that does not also match `V<digits>Play` (the handler acts on the first
matching pattern, and `Play` is tried first), with `n` the integer the
code parses from the digits: when loop mode is on, a start-action replay
is issued so byte 4 re-encodes `n + 21`, the sound state stays `n`, and
one sound-changed event carrying `n` is emitted; when loop mode is off,
the sound state becomes `-n`, one sound-changed event carrying `-n` is
emitted, and the issued stop-action returns byte 4 to the idle value 0
whenever it held `n + 21`. -/
theorem end_notification_loop (payload ds : List Char) (s : RobotState)
    (hm : matchVTag endTag payload = Option.some ds)
    (hp : matchVTag playTag payload = Option.none)
    (hl : s.message.length = 6) :
    (s.audioLoop = true →
        (onCharacteristicChanged payload s).1.message.getD 4 0
          = toChar (qToInt ds + 21)
      ∧ (onCharacteristicChanged payload s).1.currentSound = qToInt ds
      ∧ (onCharacteristicChanged payload s).2.soundEvents = [qToInt ds])
  ∧ (s.audioLoop = false →
        (onCharacteristicChanged payload s).1.currentSound = -(qToInt ds)
      ∧ (onCharacteristicChanged payload s).2.soundEvents = [-(qToInt ds)]
      ∧ (s.message.getD 4 0 = toChar (qToInt ds + 21) →
          (onCharacteristicChanged payload s).1.message.getD 4 0 = 0)) := by
  have h0 : 0 ≤ qToInt ds := qToInt_nonneg ds
  unfold onCharacteristicChanged
  rw [hp, hm]
  dsimp only
  constructor
  · intro hloop
    rw [if_pos hloop]
    have hfragM : fragmentForAction s.firmwareRevision 'M' (qToInt ds)
        = ⟨4, toChar (qToInt ds + 21)⟩ := by
      rw [fragmentForAction_M, max_eq_right h0]
    refine ⟨?_, ?_, ?_⟩
    · simp only [startAction]
      rw [if_neg (by decide : ¬('M' = 'S')), hfragM,
          if_pos (by rfl :
            (MessageFragment.mk 4 (toChar (qToInt ds + 21))).isValid = true),
          if_pos (by rfl :
            (MessageFragment.mk 4 (toChar (qToInt ds + 21))).offset = 4)]
      dsimp only
      have := setCurrentMessage_getD_self 4 (toChar (qToInt ds + 21))
        { s with currentSound := qToInt ds, audioLoop := decide ('M' = 'M') }
        (by omega) (by simp [hl])
      simpa using this
    · rw [startAction_currentSound]
    · rw [Emitted_append_soundEvents, startAction_soundEvents,
          startAction_currentSound]
      rfl
  · intro hloop
    rw [if_neg (by simp [hloop])]
    refine ⟨?_, ?_, ?_⟩
    · rw [stopAction_currentSound]
    · rw [Emitted_append_soundEvents, stopAction_soundEvents,
          stopAction_currentSound]
      rfl
    · intro hbyte
      have hfrag : fragmentForAction s.firmwareRevision 'V' (- -qToInt ds)
          = ⟨4, toChar (qToInt ds + 21)⟩ := by
        rw [fragmentForAction_V]
        rw [neg_neg, max_eq_right h0]
      have hmatch : (fragmentForAction s.firmwareRevision 'V' (- -qToInt ds)).value
          = s.message.getD
              (fragmentForAction s.firmwareRevision 'V' (- -qToInt ds)).offset.toNat 0 := by
        rw [hfrag]
        exact hbyte.symm
      simp only [stopAction]
      rw [if_pos (by rw [hfrag]; rfl :
            (fragmentForAction s.firmwareRevision 'V' (- -qToInt ds)).isValid = true)]
      rw [if_pos hmatch]
      dsimp only
      rw [hfrag]
      have := setCurrentMessage_getD_self 4 (pauseMessage.getD (4:Int).toNat 0)
        { s with currentSound := -qToInt ds } (by omega) (by simp [hl])
      simpa using this

/-- C7 (witness): payload `"V3End"` on a looping session whose byte 4
holds 24 re-encodes sound 3 (byte 4 stays `3 + 21`). -/
theorem end_notification_loop_witness :
    (onCharacteristicChanged ['V','3','E','n','d'] loopingState).1.message.getD 4 0
      = toChar (qToInt ['3'] + 21) :=
  ((end_notification_loop ['V','3','E','n','d'] ['3'] loopingState
      (by decide) (by decide) (by decide)).1 rfl).1

end EvoBot
